import Mathlib

/-!
Shallow embedding of the Express backend in `backend/server.js` of the
kachinahealth Client-Backend-and-Mobile-App repository, together with proofs
about its request handlers.

Modelling conventions:
* JavaScript values flowing into `res.json(...)` are modelled by the `Json`
  inductive below; a field whose value is `undefined` is omitted from the
  object, as `JSON.stringify` drops it.
* Each request handler becomes a Lean function from its inputs (request
  parts and the database state) to an HTTP response, paired with the new
  database state when the handler can write.
* The Supabase database is a record of row lists.  Query builders are
  embedded directly: `.eq` becomes a filter, `.single()` succeeds exactly
  when one row matches, `.order` is a merge sort by the ordering column.
  Downstream infrastructure failures (network errors, thrown exceptions)
  are outside the model; every theorem speaks about the non-exceptional
  paths the source implements.
* `jsonwebtoken` is a third-party library; its `sign`/`verify` pair is
  modelled by the `Jwt` structure: a signed payload carrying the issue and
  expiry epochs and the secret used to sign, with verification succeeding
  exactly when the secret matches and the expiry epoch has not passed.
-/

/-- Minimal JSON value model for response bodies. -/
inductive Json where
  | null
  | bool (b : Bool)
  | num (n : Int)
  | str (s : String)
  | arr (elems : List Json)
  | obj (fields : List (String × Json))
deriving Repr

/-- Key lookup in a JSON object (first binding wins, as in a JS literal
built without duplicate keys). -/
def Json.lookup : Json → String → Option Json
  | .obj fields, k => fields.lookup k
  | _, _ => none

/-- JavaScript truthiness on our JSON values. -/
def Json.truthy : Json → Bool
  | .null => false
  | .bool b => b
  | .num n => n ≠ 0
  | .str s => s ≠ ""
  | .arr _ => true
  | .obj _ => true

/-- An HTTP response: status code plus JSON body (`res.status(..).json(..)`;
`res.json(..)` alone means status 200). -/
structure Resp where
  status : Nat
  body : Json
deriving Repr

/-- The body contains a boolean `success` field. -/
def Resp.hasBoolSuccess (r : Resp) : Prop :=
  ∃ b, r.body.lookup "success" = some (.bool b)

/-! ## JWT model (`jsonwebtoken`) -/

/-- The claims the login endpoint places in the token
(`{ userId, email, user_metadata }`). -/
structure JwtPayload where
  userId : String
  email : String
  user_metadata : Json
deriving Repr

/-- A signed token: payload, issue epoch, expiry epoch (seconds), and the
secret that produced the signature. -/
structure Jwt where
  payload : JwtPayload
  iat : Nat
  exp : Nat
  secret : String
deriving Repr

/-- `jwt.sign(payload, secret, { expiresIn })` at epoch `now`,
with `expiresIn` in seconds. -/
def jwtSign (payload : JwtPayload) (secret : String) (now expiresIn : Nat) : Jwt :=
  { payload := payload, iat := now, exp := now + expiresIn, secret := secret }

/-- `jwt.verify(token, secret)` at epoch `now`: yields the payload when the
signature checks out against `secret` and the token has not expired. -/
def jwtVerify (t : Jwt) (secret : String) (now : Nat) : Option JwtPayload :=
  if t.secret = secret ∧ now < t.exp then some t.payload else none

/-! ## The `authenticateToken` middleware (server.js lines 26-41) -/

/-- Character-level embedding of the JavaScript `split(' ')`. -/
def splitChar (sep : Char) : List Char → List (List Char)
  | [] => [[]]
  | c :: cs =>
    let rest := splitChar sep cs
    if c = sep then [] :: rest
    else
      match rest with
      | [] => [[c]]
      | r :: rs => (c :: r) :: rs

/-- Token extraction: `const token = authHeader && authHeader.split(' ')[1]`,
followed by the falsiness test `if (!token)`.  A missing header (`&&` keeps
the falsy left operand), an empty header, a header without a second
space-separated part, or an empty second part all leave a falsy token. -/
def extractToken (authHeader : Option String) : Option String :=
  match authHeader with
  | none => none
  | some h =>
    if h.data.isEmpty then none
    else
      match (splitChar ' ' h.data).get? 1 with
      | none => none
      | some t => if t.isEmpty then none else some (String.mk t)

/-- Outcome of the middleware checks. -/
inductive TokenCheck where
  | missing
  | invalid
  | valid (payload : JwtPayload)
deriving Repr

/-- The middleware pipeline: extract the bearer token string, decode it
(`decode` models the parse of the compact serialization back to the signed
token; an unparsable string fails), then verify against the secret. -/
def checkAuth (decode : String → Option Jwt) (secret : String) (now : Nat)
    (authHeader : Option String) : TokenCheck :=
  match extractToken authHeader with
  | none => .missing
  | some s =>
    match decode s with
    | none => .invalid
    | some t =>
      match jwtVerify t secret now with
      | none => .invalid
      | some p => .valid p

/-- Body of the 401 rejection: `{ error: 'Access token required' }`. -/
def tokenRequiredBody : Json := .obj [("error", .str "Access token required")]

/-- Body of the 403 rejection: `{ error: 'Invalid or expired token' }`. -/
def tokenInvalidBody : Json := .obj [("error", .str "Invalid or expired token")]

/-- A route registered as `app.METHOD(path, authenticateToken, handler)`:
the middleware either rejects (databases untouched, handler never runs) or
stores the verified payload in `req.user` and calls the handler. -/
def protectedRoute {Db : Type} (decode : String → Option Jwt) (secret : String)
    (now : Nat) (handler : JwtPayload → Db → Resp × Db)
    (authHeader : Option String) (db : Db) : Resp × Db :=
  match checkAuth decode secret now authHeader with
  | .missing => (⟨401, tokenRequiredBody⟩, db)
  | .invalid => (⟨403, tokenInvalidBody⟩, db)
  | .valid p => handler p db

/-! ## Unauthenticated service endpoints (server.js lines 44-59) -/

/-- `GET /` response (server.js lines 44-50). -/
def rootResp : Resp :=
  ⟨200, .obj [("message", .str "Client Portal Backend API"),
              ("version", .str "1.0.0"),
              ("status", .str "running")]⟩

/-- `GET /health` response (server.js lines 53-59); timestamp and uptime are
request-time inputs. -/
def healthResp (timestamp : String) (uptime : Int) : Resp :=
  ⟨200, .obj [("status", .str "OK"),
              ("timestamp", .str timestamp),
              ("uptime", .num uptime)]⟩

/-! ## Database model -/

/-- Row of `organizations`. -/
structure Organization where
  id : String
  name : String
deriving Repr, DecidableEq

/-- Row of `profiles` (columns the server reads or writes). -/
structure Profile where
  id : String
  organization_id : String
  role : String
  display_name : Option String
  created_at : String
  updated_at : String
deriving Repr, DecidableEq

/-- Row of `clinical_trials` (columns the server reads or writes). -/
structure ClinicalTrial where
  id : String
  organization_id : String
  name : String
  is_active : Bool
  created_at : String
deriving Repr, DecidableEq

/-- Row of `news` (schema in `news-table-setup.sql`). -/
structure NewsRow where
  id : String
  news_title : String
  news_content : String
  created_by : Option String
  created_by_name : Option String
  created_date : String
  is_active : Bool
  created_at : String
deriving Repr, DecidableEq

/-- Row of `training_materials` (columns selected by the authenticated
`GET /api/training-materials` route). -/
structure TrainingMaterialRow where
  id : String
  clinical_trial_id : String
  title : String
  description : Option String
  storage_path : Option String
  created_at : String
deriving Repr, DecidableEq

/-- Row of `hospitals`.  The transform at server.js lines 1765-1774 probes
several alternative column spellings, so each appears as an optional field;
numeric columns are modelled as integers (the claims under study never touch
the fractional `consent_rate` values). -/
structure HospitalRow where
  id : String
  hospital_name : Option String
  hname : Option String
  hospitalName : Option String
  location : Option String
  principal_investigator : Option String
  principalInvestigator : Option String
  consented_patients : Option Int
  consentedPatients : Option Int
  randomized_patients : Option Int
  randomizedPatients : Option Int
  consented_rate : Option Int
  consentRate : Option Int
  created_at : String
deriving Repr, DecidableEq

/-- The Supabase database as seen by the handlers under study. -/
structure DB where
  organizations : List Organization
  profiles : List Profile
  clinical_trials : List ClinicalTrial
  news : List NewsRow
  training_materials : List TrainingMaterialRow
  hospitals : List HospitalRow
deriving Repr, DecidableEq

/-- `.single()` on a filtered query: succeeds exactly when one row matches. -/
def singleRow {α : Type} (pred : α → Bool) (rows : List α) : Option α :=
  match rows.filter pred with
  | [r] => some r
  | _ => none

/-- `.from('profiles').select(..).eq('id', id).single()`. -/
def findProfile (db : DB) (id : String) : Option Profile :=
  singleRow (fun p => p.id == id) db.profiles

/-- Insertion step for the `.order(col, { ascending: false })` embedding. -/
def insertByDesc {α κ : Type} [LinearOrder κ] (key : α → κ) (x : α) :
    List α → List α
  | [] => [x]
  | y :: ys => if key y ≤ key x then x :: y :: ys else y :: insertByDesc key x ys

/-- `.order(col, { ascending: false })`: a sort by the key, descending. -/
def sortByDesc {α κ : Type} [LinearOrder κ] (key : α → κ) : List α → List α
  | [] => []
  | x :: xs => insertByDesc key x (sortByDesc key xs)

/-- JSON encoding of a nullable text column (SQL `NULL` serializes as JSON
`null`, not as an absent key). -/
def jstr : Option String → Json
  | none => .null
  | some s => .str s

/-- JSON encoding of a nullable integer column. -/
def jnum : Option Int → Json
  | none => .null
  | some n => .num n

/-- Nested `organizations ( id, name )` object of a join select. -/
def orgJson (db : DB) (orgId : String) : Json :=
  match singleRow (fun o => o.id == orgId) db.organizations with
  | some o => .obj [("id", .str o.id), ("name", .str o.name)]
  | none => .null

/-- `['admin', 'user', 'doctor'].includes(role)`. -/
def roleAllowed (role : String) : Bool :=
  ["admin", "user", "doctor"].contains role

/-! ## PUT /api/users/:id (server.js lines 608-721) -/

/-- Response helper: `{ success: false, message }` with a status. -/
def failResp (status : Nat) (message : String) : Resp :=
  ⟨status, .obj [("success", .bool false), ("message", .str message)]⟩

/-- The `user` object returned by the update select (joined with
`organizations ( id, name )`). -/
def updatedUserJson (db : DB) (p : Profile) : Json :=
  .obj [("id", .str p.id),
        ("role", .str p.role),
        ("display_name", jstr p.display_name),
        ("created_at", .str p.created_at),
        ("updated_at", .str p.updated_at),
        ("organizations", orgJson db p.organization_id)]

/-- The row mutation of the update statement: `updated_at` always, then
`display_name` when the body defined `displayName`, then `role` when the
caller may change roles and the body defined `role`. -/
def applyUserUpdate (displayName roleOpt : Option String) (canUpdateRole : Bool)
    (now : String) (p : Profile) : Profile :=
  { p with
    updated_at := now
    display_name := match displayName with
      | some d => some d
      | none => p.display_name
    role := if canUpdateRole then
        match roleOpt with
        | some r => r
        | none => p.role
      else p.role }

/-- `PUT /api/users/:id`.  `callerId` is `req.user.userId` from the verified
token, `pathId` the `:id` path parameter; `displayName` and `roleOpt` are the
body fields (`none` models an `undefined` field).  The `.single()` after the
update succeeds exactly when one row has the path id; when it fails the
transaction is aborted, so the database is returned unchanged. -/
def putUser (db : DB) (callerId pathId : String)
    (displayName roleOpt : Option String) (now : String) : Resp × DB :=
  match findProfile db callerId with
  | none => (failResp 400 "Failed to get user profile", db)
  | some userProfile =>
    let isAdmin := userProfile.role == "admin"
    let isSelf := pathId == callerId
    let canUpdateRole := isAdmin
    if !isAdmin && !isSelf then
      (failResp 403 "You can only update your own profile", db)
    else if !canUpdateRole && roleOpt.isSome then
      (failResp 403 "Only admins can change user roles", db)
    else
      let orgViolation : Bool :=
        if isAdmin then
          match findProfile db pathId with
          | none => true
          | some target => target.organization_id ≠ userProfile.organization_id
        else false
      if orgViolation then
        (failResp 403 "Cannot update users from different organizations", db)
      else
        if canUpdateRole && roleOpt.isSome && !(roleAllowed (roleOpt.getD "")) then
          (failResp 400 "Invalid role. Must be: admin, user, or doctor", db)
        else
          let db' := { db with profiles := db.profiles.map (fun p =>
            if p.id == pathId then
              applyUserUpdate displayName roleOpt canUpdateRole now p
            else p) }
          match singleRow (fun p => p.id == pathId) db'.profiles with
          | none => (failResp 400 "Failed to update user", db)
          | some updated =>
            (⟨200, .obj [("success", .bool true),
                         ("message", .str "User updated successfully"),
                         ("user", updatedUserJson db' updated)]⟩, db')

/-! ## DELETE /api/users/:id (server.js lines 724-790) -/

/-- `DELETE /api/users/:id`.  The permission ladder of the source, in order:
caller profile must load and be an admin (else 403), the target profile must
load and share the organization (else 403), the target must differ from the
caller (else 400), and only then is the delete issued. -/
def deleteUser (db : DB) (callerId pathId : String) : Resp × DB :=
  match findProfile db callerId with
  | none => (failResp 403 "Only admins can delete users", db)
  | some userProfile =>
    if userProfile.role ≠ "admin" then
      (failResp 403 "Only admins can delete users", db)
    else
      match findProfile db pathId with
      | none => (failResp 403 "Cannot delete users from different organizations", db)
      | some target =>
        if target.organization_id ≠ userProfile.organization_id then
          (failResp 403 "Cannot delete users from different organizations", db)
        else if pathId == callerId then
          (failResp 400 "Cannot delete your own account", db)
        else
          (⟨200, .obj [("success", .bool true),
                       ("message", .str "User deleted successfully")]⟩,
           { db with profiles := db.profiles.filter (fun p => p.id ≠ pathId) })

/-! ## POST /api/auth/login (server.js lines 63-116) -/

/-- A Supabase auth user as returned by `signInWithPassword`. -/
structure AuthUser where
  id : String
  email : String
  user_metadata : Json
deriving Repr

/-- Result of `supabase.auth.signInWithPassword`. -/
inductive SignInResult where
  | ok (user : AuthUser)
  | err (message : String)
deriving Repr

/-- Falsiness of an optional body string (`!email` is true for a missing
field and for the empty string). -/
def falsyStr : Option String → Bool
  | none => true
  | some s => s == ""

/-- `data.user.user_metadata?.full_name || data.user.email`. -/
def loginDisplayName (u : AuthUser) : String :=
  match u.user_metadata.lookup "full_name" with
  | some v => if v.truthy then
      match v with
      | .str s => s
      | _ => u.email
    else u.email
  | none => u.email

/-- Everything the login handler produces: the HTTP response, whether the
identity provider was consulted, and the minted session token if any. -/
structure LoginOutcome where
  resp : Resp
  signInAttempted : Bool
  mintedToken : Option Jwt
deriving Repr

/-- `POST /api/auth/login`: validate both fields truthy, call the identity
provider (`signIn`), and on success mint a 24-hour token over
`{ userId, email, user_metadata }` with the configured secret.  `serialize`
models the compact serialization of the signed token placed in the body. -/
def loginHandler (signIn : String → String → SignInResult)
    (serialize : Jwt → String) (secret : String) (now : Nat)
    (email password : Option String) : LoginOutcome :=
  if falsyStr email || falsyStr password then
    { resp := ⟨400, .obj [("error", .str "Email and password are required")]⟩
      signInAttempted := false
      mintedToken := none }
  else
    match signIn (email.getD "") (password.getD "") with
    | .err m =>
      { resp := ⟨401, .obj [("success", .bool false),
                            ("message", .str "Invalid credentials"),
                            ("error", .str m)]⟩
        signInAttempted := true
        mintedToken := none }
    | .ok u =>
      let token := jwtSign ⟨u.id, u.email, u.user_metadata⟩ secret now 86400
      { resp := ⟨200, .obj [("success", .bool true),
                            ("message", .str "Login successful"),
                            ("user", .obj [("id", .str u.id),
                                           ("email", .str u.email),
                                           ("name", .str (loginDisplayName u))]),
                            ("token", .str (serialize token))]⟩
        signInAttempted := true
        mintedToken := some token }

/-! ## GET /api/hospitals (server.js lines 1753-1832) -/

/-- JavaScript `a || b` on two nullable strings (empty string is falsy). -/
def jsOrStr (a b : Option String) : Option String :=
  match a with
  | some s => if s ≠ "" then some s else b
  | none => b

/-- JavaScript `a || b` on two nullable integers (`0` is falsy). -/
def jsOrInt (a b : Option Int) : Option Int :=
  match a with
  | some n => if n ≠ 0 then some n else b
  | none => b

/-- JavaScript `x || 0` on a nullable integer. -/
def jsOrZero (x : Option Int) : Int :=
  match x with
  | some n => if n ≠ 0 then n else 0
  | none => 0

/-- The reshaped hospital object built at server.js lines 1765-1774. -/
structure THospital where
  id : String
  thname : Option String
  location : Option String
  principal_investigator : Option String
  consented_patients : Option Int
  randomized_patients : Option Int
  consent_rate : Option Int
  created_at : String
deriving Repr, DecidableEq

/-- Per-row transform of the hospitals query result. -/
def transformHospital (h : HospitalRow) : THospital :=
  { id := h.id
    thname := jsOrStr h.hospital_name (jsOrStr h.hname h.hospitalName)
    location := h.location
    principal_investigator := jsOrStr h.principal_investigator h.principalInvestigator
    consented_patients := jsOrInt h.consented_patients h.consentedPatients
    randomized_patients := jsOrInt h.randomized_patients h.randomizedPatients
    consent_rate := jsOrInt h.consented_rate h.consentRate
    created_at := h.created_at }

/-- The three-element mock list substituted when the query yields no rows
(server.js lines 1777-1808); `now` stands for `new Date().toISOString()`. -/
def mockHospitals (now : String) : List THospital :=
  [{ id := "1", thname := some "City General Hospital",
     location := some "New York, NY",
     principal_investigator := some "Dr. Michael Johnson",
     consented_patients := some 150, randomized_patients := some 120,
     consent_rate := some 80, created_at := now },
   { id := "2", thname := some "Metro Medical Center",
     location := some "Los Angeles, CA",
     principal_investigator := some "Dr. Sarah Williams",
     consented_patients := some 200, randomized_patients := some 180,
     consent_rate := some 90, created_at := now },
   { id := "3", thname := some "Regional Health System",
     location := some "Chicago, IL",
     principal_investigator := some "Dr. Robert Brown",
     consented_patients := some 125, randomized_patients := some 100,
     consent_rate := some 80, created_at := now }]

/-- The `transformedHospitals` array of the handler: the transformed query
result (ordered by `randomized_patients` descending), or the mock list when
the query came back empty. -/
def transformedHospitals (db : DB) (now : String) : List THospital :=
  if db.hospitals ≠ [] then
    (sortByDesc (fun h => jsOrZero h.randomized_patients) db.hospitals).map
      transformHospital
  else mockHospitals now

/-- JSON encoding of a transformed hospital object. -/
def thospitalJson (h : THospital) : Json :=
  .obj [("id", .str h.id),
        ("name", jstr h.thname),
        ("location", jstr h.location),
        ("principal_investigator", jstr h.principal_investigator),
        ("consented_patients", jnum h.consented_patients),
        ("randomized_patients", jnum h.randomized_patients),
        ("consent_rate", jnum h.consent_rate),
        ("created_at", .str h.created_at)]

/-- The summary computed at server.js lines 1812-1816: three `reduce`
folds over the transformed array. -/
def hospitalsSummary (hs : List THospital) : Json :=
  .obj [("totalConsented",
           .num (hs.foldl (fun sum h => sum + jsOrZero h.consented_patients) 0)),
        ("totalRandomized",
           .num (hs.foldl (fun sum h => sum + jsOrZero h.randomized_patients) 0)),
        ("totalHospitals", .num hs.length)]

/-- `GET /api/hospitals`.  The handler ignores the query error object
entirely (a failed query leaves `data` null and lands in the mock branch),
so every non-exceptional path responds 200. -/
def getHospitals (db : DB) (now : String) : Resp :=
  let hs := transformedHospitals db now
  ⟨200, .obj [("success", .bool true),
              ("hospitals", .arr (hs.map thospitalJson)),
              ("summary", hospitalsSummary hs)]⟩

/-! ## News endpoints (server.js lines 1564-1670) -/

/-- The reshaped news item built at lines 1581-1590 and 1643-1652. -/
def newsItemJson (item : NewsRow) : Json :=
  .obj [("id", .str item.id),
        ("title", .str item.news_title),
        ("content", .str item.news_content),
        ("created_by", jstr item.created_by),
        ("created_by_name", jstr item.created_by_name),
        ("date", .str item.created_date),
        ("is_active", .bool item.is_active),
        ("created_at", .str item.created_at)]

/-- The rows `GET /api/news` serves: active rows ordered by
`created_date` descending. -/
def newsQuery (db : DB) : List NewsRow :=
  sortByDesc (fun item => item.created_date) (db.news.filter (fun item => item.is_active))

/-- `GET /api/news` (non-exceptional path). -/
def getNews (db : DB) : Resp :=
  ⟨200, .obj [("success", .bool true),
              ("newsItems", .arr ((newsQuery db).map newsItemJson))]⟩

/-- The row the `POST /api/news` insert produces: the handler supplies
`news_title`, `news_content`, `created_by: null`, `created_by_name: 'User'`;
the schema defaults fill `id` (generated), `created_date` and `created_at`
(`NOW()`), and `is_active` (`true`). -/
def newNewsRow (title content genId now : String) : NewsRow :=
  { id := genId
    news_title := title
    news_content := content
    created_by := none
    created_by_name := some "User"
    created_date := now
    is_active := true
    created_at := now }

/-- `POST /api/news`: both fields must be truthy, then the insert runs and
the inserted row is reshaped into the response. -/
def postNews (db : DB) (title content : Option String) (genId now : String) :
    Resp × DB :=
  if falsyStr title || falsyStr content then
    (failResp 400 "Title and content are required", db)
  else
    let row := newNewsRow (title.getD "") (content.getD "") genId now
    (⟨200, .obj [("success", .bool true),
                 ("message", .str "News item created successfully"),
                 ("newsItem", newsItemJson row)]⟩,
     { db with news := db.news ++ [row] })

/-! ## Training material endpoints -/

/-- The nested `clinical_trials ( id, name )` object of a join select. -/
def trialJoinJson (db : DB) (trialId : String) : Json :=
  match singleRow (fun t => t.id == trialId) db.clinical_trials with
  | some t => .obj [("id", .str t.id), ("name", .str t.name)]
  | none => .null

/-- Reshaping of a training material row by the authenticated
`GET /api/training-materials` select (server.js lines 1395-1413). -/
def trainingMaterialJson (db : DB) (m : TrainingMaterialRow) : Json :=
  .obj [("id", .str m.id),
        ("title", .str m.title),
        ("description", jstr m.description),
        ("storage_path", jstr m.storage_path),
        ("created_at", .str m.created_at),
        ("clinical_trials", trialJoinJson db m.clinical_trial_id)]

/-- `GET /api/training-materials` (server.js lines 1370-1434): this is the
first route Express registers for the path, so it is the one that serves
requests; the later unauthenticated copy at lines 2045-2088 is shadowed.
`trialIds` is the result of the `get_user_accessible_trials` RPC for the
caller. -/
def getTrainingMaterials (db : DB) (trialIds : List String) : Resp :=
  if trialIds.isEmpty then
    ⟨200, .obj [("success", .bool true), ("training_materials", .arr [])]⟩
  else
    let rows := sortByDesc (fun m => m.created_at)
      (db.training_materials.filter (fun m => trialIds.contains m.clinical_trial_id))
    ⟨200, .obj [("success", .bool true),
                ("training_materials", .arr (rows.map (trainingMaterialJson db)))]⟩

/-- `POST /api/training-materials` (server.js lines 2091-2129): after the
field check the handler builds a mock object in memory and responds with it;
no insert is ever issued, so the database comes back unchanged.  `genId`
stands for `Date.now().toString()` and `now` for the ISO timestamp. -/
def postTrainingMaterial (db : DB)
    (title description mtype content category : Option String)
    (genId now : String) : Resp × DB :=
  if falsyStr title || falsyStr mtype then
    (failResp 400 "Title and type are required", db)
  else
    (⟨200, .obj [("success", .bool true),
                 ("message", .str "Training material created successfully"),
                 ("trainingMaterial",
                    .obj [("id", .str genId),
                          ("title", .str (title.getD "")),
                          ("description", jstr description),
                          ("type", .str (mtype.getD "")),
                          ("content", jstr content),
                          ("category", jstr category),
                          ("created_by", .str "test-user"),
                          ("created_by_name", .str "Test User"),
                          ("upload_date", .str now),
                          ("is_active", .bool true),
                          ("created_at", .str now)])]⟩, db)

/-! ## DELETE /api/clinical-trials/:id (server.js lines 1018-1046) -/

/-- `DELETE /api/clinical-trials/:id`: the route has no `authenticateToken`
middleware and no organization check of any kind; it deletes whatever row
carries the path id and responds 200. -/
def deleteClinicalTrial (db : DB) (pathId : String) : Resp × DB :=
  (⟨200, .obj [("success", .bool true),
               ("message", .str "Clinical trial deleted successfully")]⟩,
   { db with clinical_trials := db.clinical_trials.filter (fun t => t.id ≠ pathId) })

/-! ## Shared lemmas about the query embedding -/

theorem insertByDesc_perm {α κ : Type} [LinearOrder κ] (key : α → κ) (x : α) :
    ∀ l : List α, (insertByDesc key x l).Perm (x :: l)
  | [] => List.Perm.refl _
  | y :: ys => by
    unfold insertByDesc
    split
    · exact List.Perm.refl _
    · exact ((insertByDesc_perm key x ys).cons y).trans (List.Perm.swap x y ys)

theorem sortByDesc_perm {α κ : Type} [LinearOrder κ] (key : α → κ) :
    ∀ l : List α, (sortByDesc key l).Perm l
  | [] => List.Perm.refl _
  | x :: xs => by
    unfold sortByDesc
    exact (insertByDesc_perm key x (sortByDesc key xs)).trans
      ((sortByDesc_perm key xs).cons x)

theorem mem_sortByDesc {α κ : Type} [LinearOrder κ] (key : α → κ)
    (l : List α) (a : α) : a ∈ sortByDesc key l ↔ a ∈ l :=
  (sortByDesc_perm key l).mem_iff

theorem jsOrZero_eq_getD (x : Option Int) : jsOrZero x = x.getD 0 := by
  cases x with
  | none => rfl
  | some n =>
    by_cases h : n = 0 <;> simp [jsOrZero, h]

theorem foldl_add_eq_sum {α : Type} (f : α → Int) :
    ∀ (l : List α) (c : Int), l.foldl (fun s a => s + f a) c = c + (l.map f).sum
  | [], c => by simp
  | a :: l, c => by
    rw [List.foldl_cons, foldl_add_eq_sum f l (c + f a)]
    simp [add_assoc]

/-- An empty database, used to instantiate universally quantified theorems. -/
def emptyDB : DB := ⟨[], [], [], [], [], []⟩

/-- C1: a request to a route registered with `authenticateToken` whose
Authorization header yields no token is answered 401, and one whose token
fails to decode or verify against the signing secret is answered 403; in
both cases the database comes back unchanged and the handler body never
runs (the result does not depend on the handler). -/
theorem authenticateToken_rejects_without_mutation {Db : Type}
    (decode : String → Option Jwt) (secret : String) (now : Nat)
    (handler : JwtPayload → Db → Resp × Db) (authHeader : Option String)
    (db : Db) :
    (extractToken authHeader = none →
       protectedRoute decode secret now handler authHeader db =
         (⟨401, tokenRequiredBody⟩, db))
  ∧ (∀ s, extractToken authHeader = some s →
       (decode s).bind (fun t => jwtVerify t secret now) = none →
       protectedRoute decode secret now handler authHeader db =
         (⟨403, tokenInvalidBody⟩, db)) := by
  constructor
  · intro h
    simp [protectedRoute, checkAuth, h]
  · intro s hs hv
    cases hd : decode s with
    | none => simp [protectedRoute, checkAuth, hs, hd]
    | some t =>
      rw [hd, Option.some_bind] at hv
      simp [protectedRoute, checkAuth, hs, hd, hv]

/-- Witness for C1 at concrete inputs: no header gives 401, a header whose
bearer part no decoder accepts gives 403, database untouched either way. -/
theorem authenticateToken_rejects_witness :
    (protectedRoute (fun _ => none) "secret" 0
        (fun _ db => (rootResp, db)) none emptyDB =
      (⟨401, tokenRequiredBody⟩, emptyDB))
  ∧ (protectedRoute (fun _ => none) "secret" 0
        (fun _ db => (rootResp, db)) (some "Bearer x") emptyDB =
      (⟨403, tokenInvalidBody⟩, emptyDB)) :=
  ⟨(authenticateToken_rejects_without_mutation _ _ _ _ _ _).1 rfl,
   (authenticateToken_rejects_without_mutation _ _ _ _ _ _).2 "x" (by decide) rfl⟩

/-- Concrete identity provider used to instantiate the login theorems:
accepts exactly the pair ("ann", "pw"). -/
def signInDemo : String → String → SignInResult := fun e p =>
  if e = "ann" ∧ p = "pw" then .ok ⟨"u1", "ann", .null⟩
  else .err "Invalid login credentials"

/-- Concrete token serializer used to instantiate the login theorems. -/
def serializeDemo : Jwt → String := fun t => t.payload.userId ++ "." ++ t.secret

/-- C6: `POST /api/auth/login` with both fields present and truthy asks the
identity provider; acceptance yields a `success:true` body carrying the
serialized minted token, rejection yields status 401 with `success:false`,
and a missing or empty field yields status 400 without any sign-in
attempt. -/
theorem login_contract (signIn : String → String → SignInResult)
    (serialize : Jwt → String) (secret : String) (now : Nat)
    (email password : Option String) :
    ((falsyStr email || falsyStr password) = true →
       (loginHandler signIn serialize secret now email password).resp.status = 400 ∧
       (loginHandler signIn serialize secret now email password).signInAttempted = false)
  ∧ (∀ e p m, email = some e → password = some p →
       (falsyStr email || falsyStr password) = false →
       signIn e p = .err m →
       (loginHandler signIn serialize secret now email password).resp.status = 401 ∧
       (loginHandler signIn serialize secret now email
         password).resp.body.lookup "success" = some (.bool false))
  ∧ (∀ e p u, email = some e → password = some p →
       (falsyStr email || falsyStr password) = false →
       signIn e p = .ok u →
       (loginHandler signIn serialize secret now email
         password).resp.body.lookup "success" = some (.bool true) ∧
       ∃ tok, (loginHandler signIn serialize secret now email
           password).mintedToken = some tok ∧
         (loginHandler signIn serialize secret now email
           password).resp.body.lookup "token" = some (.str (serialize tok))) := by
  refine ⟨fun hf => ?_, fun e p m he hp hf hs => ?_, fun e p u he hp hf hs => ?_⟩
  · simp [loginHandler, hf]
  · subst he hp
    simp [loginHandler, hf, hs, Json.lookup]
  · subst he hp
    simp only [loginHandler, hf, Bool.false_eq_true, if_false, Option.getD_some, hs]
    exact ⟨rfl, jwtSign ⟨u.id, u.email, u.user_metadata⟩ secret now 86400, rfl, rfl⟩

/-- Witness for C6: the three branches at concrete inputs. -/
theorem login_contract_witness :
    ((loginHandler signInDemo serializeDemo "sec" 0 none (some "pw")).resp.status = 400 ∧
     (loginHandler signInDemo serializeDemo "sec" 0 none
       (some "pw")).signInAttempted = false)
  ∧ ((loginHandler signInDemo serializeDemo "sec" 0 (some "ann")
        (some "bad")).resp.status = 401 ∧
     (loginHandler signInDemo serializeDemo "sec" 0 (some "ann")
        (some "bad")).resp.body.lookup "success" = some (.bool false))
  ∧ ((loginHandler signInDemo serializeDemo "sec" 0 (some "ann")
        (some "pw")).resp.body.lookup "success" = some (.bool true) ∧
     ∃ tok, (loginHandler signInDemo serializeDemo "sec" 0 (some "ann")
          (some "pw")).mintedToken = some tok ∧
        (loginHandler signInDemo serializeDemo "sec" 0 (some "ann")
          (some "pw")).resp.body.lookup "token" = some (.str (serializeDemo tok))) :=
  ⟨(login_contract signInDemo serializeDemo "sec" 0 none (some "pw")).1 rfl,
   (login_contract signInDemo serializeDemo "sec" 0 (some "ann") (some "bad")).2.1
     "ann" "bad" "Invalid login credentials" rfl rfl (by decide) rfl,
   (login_contract signInDemo serializeDemo "sec" 0 (some "ann") (some "pw")).2.2
     "ann" "pw" ⟨"u1", "ann", .null⟩ rfl rfl (by decide) rfl⟩

/-- C9: the token minted by a successful login is signed with the configured
secret, its claims are exactly the user id, email and user metadata of the
authenticated user, its expiry is 24 hours (86400 seconds) past issuance,
and verification at or after the expiry instant fails. -/
theorem login_token_claims (signIn : String → String → SignInResult)
    (serialize : Jwt → String) (secret : String) (now : Nat)
    (e p : String) (u : AuthUser)
    (hf : (falsyStr (some e) || falsyStr (some p)) = false)
    (hok : signIn e p = .ok u) :
    ∃ tok, (loginHandler signIn serialize secret now (some e)
        (some p)).mintedToken = some tok ∧
      tok.payload = ⟨u.id, u.email, u.user_metadata⟩ ∧
      tok.secret = secret ∧ tok.iat = now ∧ tok.exp = now + 86400 ∧
      ∀ t, tok.exp ≤ t → jwtVerify tok secret t = none := by
  refine ⟨jwtSign ⟨u.id, u.email, u.user_metadata⟩ secret now 86400, ?_, rfl, rfl, rfl, rfl, ?_⟩
  · simp [loginHandler, hf, hok]
  · intro t ht
    simp only [jwtVerify, jwtSign, ite_eq_right_iff]
    intro h
    exact absurd h.2 (not_lt.mpr ht)

/-- Witness for C9 at concrete inputs. -/
theorem login_token_claims_witness :
    ∃ tok, (loginHandler signInDemo serializeDemo "sec" 100 (some "ann")
        (some "pw")).mintedToken = some tok ∧
      tok.payload = ⟨"u1", "ann", .null⟩ ∧
      tok.secret = "sec" ∧ tok.iat = 100 ∧ tok.exp = 100 + 86400 ∧
      ∀ t, tok.exp ≤ t → jwtVerify tok "sec" t = none :=
  login_token_claims signInDemo serializeDemo "sec" 100 "ann" "pw"
    ⟨"u1", "ann", .null⟩ (by decide) rfl

/-- A database holding one non-admin profile. -/
def dbUserOnly : DB :=
  { emptyDB with profiles := [⟨"u1", "orgA", "user", none, "c", "c"⟩] }

/-- A database holding one admin profile. -/
def dbAdminOnly : DB :=
  { emptyDB with profiles := [⟨"a1", "orgA", "admin", none, "c", "c"⟩] }

/-- A database with an admin in organization A and a user in
organization B. -/
def dbTwoOrgs : DB :=
  { emptyDB with profiles :=
      [⟨"a1", "orgA", "admin", none, "c", "c"⟩,
       ⟨"u2", "orgB", "user", none, "c", "c"⟩] }

/-- A database with an admin and a user in the same organization. -/
def dbOneOrg : DB :=
  { emptyDB with profiles :=
      [⟨"a1", "orgA", "admin", none, "c", "c"⟩,
       ⟨"u2", "orgA", "user", none, "c", "c"⟩] }

/-- Counterexample to C3: a non-admin caller deleting their own id is
answered 403 ("Only admins can delete users"), not the claimed 400 — the
admin gate at server.js line 736 fires before the self-deletion check at
line 758. -/
theorem deleteUser_self_non_admin_cex :
    (deleteUser dbUserOnly "u1" "u1").1.status = 403 ∧
    (deleteUser dbUserOnly "u1" "u1").1.status ≠ 400 ∧
    (deleteUser dbUserOnly "u1" "u1").1.body.lookup "message" =
      some (.str "Only admins can delete users") ∧
    (deleteUser dbUserOnly "u1" "u1").2 = dbUserOnly :=
  ⟨rfl, by decide, rfl, rfl⟩

/-- C3 (amended): for an admin caller, `DELETE /api/users/:id` on the
caller's own id is rejected with 400 ("Cannot delete your own account") and
no profile row is deleted; non-admin callers are stopped earlier by the
admin gate with a 403, likewise without deletion. -/
theorem deleteUser_self_rejected (db : DB) (callerId : String) (p : Profile)
    (hp : findProfile db callerId = some p) :
    (p.role = "admin" →
       deleteUser db callerId callerId =
         (failResp 400 "Cannot delete your own account", db))
  ∧ (p.role ≠ "admin" →
       deleteUser db callerId callerId =
         (failResp 403 "Only admins can delete users", db)) := by
  constructor
  · intro hrole
    simp [deleteUser, hp, hrole]
  · intro hrole
    simp [deleteUser, hp, hrole]

/-- Witness for C3 (amended) at concrete inputs. -/
theorem deleteUser_self_rejected_witness :
    deleteUser dbAdminOnly "a1" "a1" =
      (failResp 400 "Cannot delete your own account", dbAdminOnly) :=
  (deleteUser_self_rejected dbAdminOnly "a1" ⟨"a1", "orgA", "admin", none, "c", "c"⟩
    rfl).1 rfl

/-- C4: a non-admin caller sending `PUT /api/users/:id` with a `role` field
for an id other than their own is rejected 403 with message "You can only
update your own profile", and no profile row changes. -/
theorem putUser_non_admin_other_rejected (db : DB) (callerId pathId : String)
    (displayName roleOpt : Option String) (now : String) (p : Profile)
    (hp : findProfile db callerId = some p) (hrole : p.role ≠ "admin")
    (hne : pathId ≠ callerId) (_hrq : roleOpt.isSome = true) :
    putUser db callerId pathId displayName roleOpt now =
      (failResp 403 "You can only update your own profile", db) := by
  simp [putUser, hp, hrole, hne]

/-- Witness for C4 at concrete inputs. -/
theorem putUser_non_admin_other_rejected_witness :
    putUser dbUserOnly "u1" "u9" none (some "admin") "t" =
      (failResp 403 "You can only update your own profile", dbUserOnly) :=
  putUser_non_admin_other_rejected dbUserOnly "u1" "u9" none (some "admin") "t"
    ⟨"u1", "orgA", "user", none, "c", "c"⟩ rfl (by decide) (by decide) rfl

/-- Counterexample to C5: an admin sending an out-of-vocabulary role for a
target in another organization receives 403 (the cross-organization gate at
server.js lines 649-662 fires before the role vocabulary check at lines
673-682), not the claimed 400. -/
theorem putUser_invalid_role_cross_org_cex :
    (putUser dbTwoOrgs "a1" "u2" none (some "superuser") "t").1.status = 403 ∧
    (putUser dbTwoOrgs "a1" "u2" none (some "superuser") "t").1.status ≠ 400 ∧
    (putUser dbTwoOrgs "a1" "u2" none (some "superuser") "t").1.body.lookup "message" =
      some (.str "Cannot update users from different organizations") ∧
    (putUser dbTwoOrgs "a1" "u2" none (some "superuser") "t").2 = dbTwoOrgs :=
  ⟨rfl, by decide, rfl, rfl⟩

/-- C5 (amended): a role change goes through `PUT /api/users/:id` only for
admin callers: every non-admin request whose body defines `role` (own
profile included) gets 403 with the database unchanged, and an admin caller
targeting a same-organization profile with a role outside
{admin, user, doctor} gets 400 with the database unchanged.  (When the
admin's target is in another organization the request is already rejected
403 by the organization gate, before the role vocabulary is examined.) -/
theorem role_change_admin_only (db : DB) (callerId pathId : String)
    (displayName : Option String) (r : String) (now : String) :
    (∀ p, findProfile db callerId = some p → p.role ≠ "admin" →
       (putUser db callerId pathId displayName (some r) now).1.status = 403 ∧
       (putUser db callerId pathId displayName (some r) now).2 = db)
  ∧ (∀ p target, findProfile db callerId = some p → p.role = "admin" →
       findProfile db pathId = some target →
       target.organization_id = p.organization_id →
       roleAllowed r = false →
       putUser db callerId pathId displayName (some r) now =
         (failResp 400 "Invalid role. Must be: admin, user, or doctor", db)) := by
  constructor
  · intro p hp hrole
    by_cases hself : pathId = callerId
    · simp [putUser, hp, hrole, hself, failResp]
    · simp [putUser, hp, hrole, hself, failResp]
  · intro p target hp hrole ht horg hr
    simp [putUser, hp, hrole, ht, horg, hr]

/-- Witness for C5 (amended) at concrete inputs: a non-admin self role
change is answered 403 without mutation, and an admin giving a
same-organization user the role "superuser" is answered 400 without
mutation. -/
theorem role_change_admin_only_witness :
    ((putUser dbUserOnly "u1" "u1" none (some "admin") "t").1.status = 403 ∧
     (putUser dbUserOnly "u1" "u1" none (some "admin") "t").2 = dbUserOnly)
  ∧ (putUser dbOneOrg "a1" "u2" none (some "superuser") "t" =
       (failResp 400 "Invalid role. Must be: admin, user, or doctor", dbOneOrg)) :=
  ⟨(role_change_admin_only dbUserOnly "u1" "u1" none "admin" "t").1
     ⟨"u1", "orgA", "user", none, "c", "c"⟩ rfl (by decide),
   (role_change_admin_only dbOneOrg "a1" "u2" none "superuser" "t").2
     ⟨"a1", "orgA", "admin", none, "c", "c"⟩
     ⟨"u2", "orgA", "user", none, "c", "c"⟩ rfl rfl rfl rfl (by decide)⟩

/-- A database where the only profile (a non-admin) sits in organization A
while the only clinical trial belongs to organization B. -/
def dbTrialB : DB :=
  { emptyDB with
    profiles := [⟨"u1", "orgA", "user", none, "c", "c"⟩],
    clinical_trials := [⟨"t1", "orgB", "Trial One", true, "c"⟩] }

/-- Counterexample to C2: `DELETE /api/clinical-trials/:id` carries no
`authenticateToken` middleware and no organization check, so a caller whose
profile sits in organization A deleting organization B's trial is answered
200 — the handler never consults any caller identity — and the row is
gone.  Not every resource type rejects cross-organization requests
with 403. -/
theorem cross_org_not_rejected_cex :
    (deleteClinicalTrial dbTrialB "t1").1.status = 200 ∧
    (deleteClinicalTrial dbTrialB "t1").1.status ≠ 403 ∧
    (deleteClinicalTrial dbTrialB "t1").2.clinical_trials = [] :=
  ⟨rfl, by decide, rfl⟩

/-- C2 (amended): the cross-organization 403 holds on the user-management
routes: for any caller and any target profile in a different organization,
both `PUT /api/users/:id` and `DELETE /api/users/:id` answer 403 and leave
the database unchanged; several other resource routes (clinical-trial
update/delete, news, hospitals, settings, clients) perform no organization
check at all. -/
theorem cross_org_user_routes_rejected (db : DB) (callerId pathId : String)
    (displayName roleOpt : Option String) (now : String) (p target : Profile)
    (hp : findProfile db callerId = some p)
    (ht : findProfile db pathId = some target)
    (horg : target.organization_id ≠ p.organization_id) :
    ((putUser db callerId pathId displayName roleOpt now).1.status = 403 ∧
     (putUser db callerId pathId displayName roleOpt now).2 = db)
  ∧ ((deleteUser db callerId pathId).1.status = 403 ∧
     (deleteUser db callerId pathId).2 = db) := by
  have hne : pathId ≠ callerId := by
    intro h
    rw [h, hp] at ht
    injection ht with ht
    rw [ht] at horg
    exact horg rfl
  constructor
  · by_cases hrole : p.role = "admin"
    · simp [putUser, hp, hrole, ht, horg, failResp]
    · by_cases hrq : roleOpt.isSome
      · simp [putUser, hp, hrole, hne, failResp]
      · simp [putUser, hp, hrole, hne, failResp]
  · by_cases hrole : p.role = "admin"
    · simp [deleteUser, hp, hrole, ht, horg, failResp]
    · simp [deleteUser, hp, hrole, failResp]

/-- Witness for C2 (amended) at concrete inputs: an organization-A admin
aiming at an organization-B profile is answered 403 by both routes. -/
theorem cross_org_user_routes_rejected_witness :
    ((putUser dbTwoOrgs "a1" "u2" none none "t").1.status = 403 ∧
     (putUser dbTwoOrgs "a1" "u2" none none "t").2 = dbTwoOrgs)
  ∧ ((deleteUser dbTwoOrgs "a1" "u2").1.status = 403 ∧
     (deleteUser dbTwoOrgs "a1" "u2").2 = dbTwoOrgs) :=
  cross_org_user_routes_rejected dbTwoOrgs "a1" "u2" none none "t"
    ⟨"a1", "orgA", "admin", none, "c", "c"⟩
    ⟨"u2", "orgB", "user", none, "c", "c"⟩ rfl rfl (by decide)

/-- Counterexample to C7: `POST /api/training-materials` answers success
but inserts nothing (the handler builds a mock object in memory), so an
immediate fetch of the training-materials list does not contain the created
entry — here the store stays empty. -/
theorem trainingMaterial_roundtrip_cex :
    (postTrainingMaterial emptyDB (some "Mat1") none (some "video") none none
        "id1" "t0").1.status = 200 ∧
    (postTrainingMaterial emptyDB (some "Mat1") none (some "video") none none
        "id1" "t0").1.body.lookup "success" = some (.bool true) ∧
    (postTrainingMaterial emptyDB (some "Mat1") none (some "video") none none
        "id1" "t0").2 = emptyDB ∧
    (getTrainingMaterials
        (postTrainingMaterial emptyDB (some "Mat1") none (some "video") none none
          "id1" "t0").2 ["t1"]).body.lookup "training_materials" =
      some (.arr []) :=
  ⟨rfl, rfl, rfl, rfl⟩

/-- C7 (amended): the create-then-fetch round-trip holds for create
endpoints that persist the submitted fields — `POST /api/news` followed by
`GET /api/news` returns an item carrying the submitted title and content —
while `POST /api/training-materials` persists nothing at all (it answers
with a mock object and returns the database unchanged), so its round-trip
fails. -/
theorem create_fetch_roundtrip :
    (∀ (db : DB) (title content genId now : String), title ≠ "" → content ≠ "" →
       (postNews db (some title) (some content) genId now).1.status = 200 ∧
       ∃ js, (getNews (postNews db (some title) (some content) genId
             now).2).body.lookup "newsItems" = some (.arr js) ∧
         ∃ item ∈ js, item.lookup "title" = some (.str title) ∧
           item.lookup "content" = some (.str content))
  ∧ (∀ (db : DB) (title description mtype content category : Option String)
       (genId now : String),
       (postTrainingMaterial db title description mtype content category
         genId now).2 = db) := by
  constructor
  · intro db title content genId now htitle hcontent
    have hft : falsyStr (some title) = false := by simp [falsyStr, htitle]
    have hfc : falsyStr (some content) = false := by simp [falsyStr, hcontent]
    have hdb2 : (postNews db (some title) (some content) genId now).2 =
        { db with news := db.news ++ [newNewsRow title content genId now] } := by
      simp [postNews, hft, hfc]
    refine ⟨by simp [postNews, hft, hfc],
      (newsQuery { db with news := db.news ++ [newNewsRow title content genId now] }).map
        newsItemJson, by rw [hdb2]; rfl, ?_⟩
    refine ⟨newsItemJson (newNewsRow title content genId now), ?_, rfl, rfl⟩
    apply List.mem_map_of_mem
    rw [newsQuery, mem_sortByDesc]
    simp [newNewsRow]
  · intro db title description mtype content category genId now
    unfold postTrainingMaterial
    split <;> rfl

/-- Witness for C7 (amended) at concrete inputs. -/
theorem create_fetch_roundtrip_witness :
    ((postNews emptyDB (some "Hello") (some "World") "n1" "t1").1.status = 200 ∧
     ∃ js, (getNews (postNews emptyDB (some "Hello") (some "World") "n1"
           "t1").2).body.lookup "newsItems" = some (.arr js) ∧
       ∃ item ∈ js, item.lookup "title" = some (.str "Hello") ∧
         item.lookup "content" = some (.str "World"))
  ∧ (postTrainingMaterial emptyDB (some "T") none (some "video") none none
      "g" "t").2 = emptyDB :=
  ⟨create_fetch_roundtrip.1 emptyDB "Hello" "World" "n1" "t1" (by decide) (by decide),
   create_fetch_roundtrip.2 emptyDB (some "T") none (some "video") none none "g" "t"⟩

/-- Counterexample to C8: three responses with no `success` field at all —
the `GET /` banner, the `GET /health` body, and the 401 body the
`authenticateToken` middleware sends (`{ error: 'Access token required' }`). -/
theorem success_envelope_cex :
    rootResp.body.lookup "success" = none ∧
    (healthResp "t" 1).body.lookup "success" = none ∧
    tokenRequiredBody.lookup "success" = none ∧
    tokenInvalidBody.lookup "success" = none :=
  ⟨rfl, rfl, rfl, rfl⟩

/-- C8 (amended): every response of the modelled API handlers carries a
boolean `success` field, except the service endpoints `GET /` and
`GET /health`, the 401/403 rejections of `authenticateToken`, and the
missing-field 400 rejection of `POST /api/auth/login` (and register), whose
bodies are bare `{ error }` or banner objects. -/
theorem success_envelope (db : DB) (callerId pathId : String)
    (displayName roleOpt : Option String) (now : String)
    (trialIds : List String) (title content descr mtype category : Option String)
    (genId : String) (signIn : String → String → SignInResult)
    (serialize : Jwt → String) (secret : String) (nowN : Nat)
    (email password : Option String) :
    (putUser db callerId pathId displayName roleOpt now).1.hasBoolSuccess
  ∧ (deleteUser db callerId pathId).1.hasBoolSuccess
  ∧ (getHospitals db now).hasBoolSuccess
  ∧ (getNews db).hasBoolSuccess
  ∧ (postNews db title content genId now).1.hasBoolSuccess
  ∧ (getTrainingMaterials db trialIds).hasBoolSuccess
  ∧ (postTrainingMaterial db title descr mtype content category genId
      now).1.hasBoolSuccess
  ∧ (deleteClinicalTrial db pathId).1.hasBoolSuccess
  ∧ ((falsyStr email || falsyStr password) = false →
       (loginHandler signIn serialize secret nowN email password).resp.hasBoolSuccess) := by
  refine ⟨?_, ?_, ⟨true, rfl⟩, ⟨true, rfl⟩, ?_, ?_, ?_, ⟨true, rfl⟩, ?_⟩
  · simp only [putUser]
    repeat' split
    all_goals first | exact ⟨false, rfl⟩ | exact ⟨true, rfl⟩
  · simp only [deleteUser]
    repeat' split
    all_goals first | exact ⟨false, rfl⟩ | exact ⟨true, rfl⟩
  · simp only [postNews]
    repeat' split
    all_goals first | exact ⟨false, rfl⟩ | exact ⟨true, rfl⟩
  · simp only [getTrainingMaterials]
    repeat' split
    all_goals first | exact ⟨false, rfl⟩ | exact ⟨true, rfl⟩
  · simp only [postTrainingMaterial]
    repeat' split
    all_goals first | exact ⟨false, rfl⟩ | exact ⟨true, rfl⟩
  · intro hf
    unfold loginHandler
    rw [hf]
    simp only [Bool.false_eq_true, if_false]
    split
    · exact ⟨false, rfl⟩
    · exact ⟨true, rfl⟩

/-- Witness for C8 (amended): the login conjunct at concrete inputs (the
other conjuncts are hypothesis-free). -/
theorem success_envelope_witness :
    (putUser emptyDB "u" "v" none none "t").1.hasBoolSuccess ∧
    (loginHandler signInDemo serializeDemo "sec" 0 (some "ann")
      (some "pw")).resp.hasBoolSuccess :=
  ⟨(success_envelope emptyDB "u" "v" none none "t" [] none none none none none
      "g" signInDemo serializeDemo "sec" 0 (some "ann") (some "pw")).1,
   (success_envelope emptyDB "u" "v" none none "t" [] none none none none none
      "g" signInDemo serializeDemo "sec" 0 (some "ann") (some "pw")).2.2.2.2.2.2.2.2
     (by decide)⟩

/-- The `reduce((sum, h) => sum + (f(h) || 0), 0)` pattern equals the sum of
the field values with missing values read as 0. -/
theorem foldl_jsOrZero (f : THospital → Option Int) (l : List THospital) :
    l.foldl (fun sum h => sum + jsOrZero (f h)) 0 =
      (l.map (fun h => (f h).getD 0)).sum := by
  rw [foldl_add_eq_sum (fun h => jsOrZero (f h)) l 0, zero_add]
  simp only [jsOrZero_eq_getD]

/-- C10: on every `GET /api/hospitals` response the returned body pairs the
hospitals array with a summary whose `totalHospitals` is the array length
and whose `totalConsented` / `totalRandomized` are the sums of the
respective per-hospital counts with missing values read as 0 — also on the
mock-data branch taken when the query yields no rows. -/
theorem hospitals_summary_invariant (db : DB) (now : String) :
    ∃ hs, (getHospitals db now).body.lookup "hospitals" =
        some (.arr (hs.map thospitalJson)) ∧
      (getHospitals db now).body.lookup "summary" = some (.obj
        [("totalConsented",
            .num ((hs.map (fun h => h.consented_patients.getD 0)).sum)),
         ("totalRandomized",
            .num ((hs.map (fun h => h.randomized_patients.getD 0)).sum)),
         ("totalHospitals", .num hs.length)]) ∧
      (db.hospitals = [] → hs = mockHospitals now) := by
  refine ⟨transformedHospitals db now, rfl, ?_, fun he => by simp [transformedHospitals, he]⟩
  show some (hospitalsSummary (transformedHospitals db now)) = _
  unfold hospitalsSummary
  rw [foldl_jsOrZero (fun h => h.consented_patients),
      foldl_jsOrZero (fun h => h.randomized_patients)]

/-- Witness for C10 on the empty database: the mock branch. -/
theorem hospitals_summary_invariant_witness :
    ∃ hs, (getHospitals emptyDB "t").body.lookup "hospitals" =
        some (.arr (hs.map thospitalJson)) ∧
      (getHospitals emptyDB "t").body.lookup "summary" = some (.obj
        [("totalConsented",
            .num ((hs.map (fun h => h.consented_patients.getD 0)).sum)),
         ("totalRandomized",
            .num ((hs.map (fun h => h.randomized_patients.getD 0)).sum)),
         ("totalHospitals", .num hs.length)]) ∧
      (emptyDB.hospitals = [] → hs = mockHospitals "t") :=
  hospitals_summary_invariant emptyDB "t"
